import Mathlib

/-!
# MyPrimaryGeneratorAction: gun configuration and firing

Shallow embedding of `main/src/MyPrimaryGeneratorAction.cpp`.

Modelling conventions.

* `G4double` is read as an element of a linearly ordered field `α`; the embedding uses
  its order, `abs`, negation and the literals of the source.
* `G4ThreeVector` (CLHEP `Hep3Vector`) is library code.  Its componentwise operations
  are written out; `unit()`, which normalises on doubles, is a parameter
  `unit : G4ThreeVector α → G4ThreeVector α` of the embedding and nothing is assumed
  about it.
* `ObtainUnitThreeVector` and `RandomiseDirection` are declared as returning
  `const G4ThreeVector&` and return a temporary of their own.  The result is a
  `G4ThreeVectorRef`: the temporary is destroyed when the function returns, and reading
  the vector through the reference is undefined, which the embedding renders as `none`.
  A function that performs such a read has the result `none`.
* The three arguments of a `G4ThreeVector(...)` constructor call are evaluated in an
  order the language leaves to the compiler: a parameter `G4ArgumentOrder`.
* `G4cerr` output is returned next to the new state as a list of `G4cerrLine`.
* The particle gun is an external collaborator: the state keeps the list of calls
  issued to it, oldest first.
* `G4UniformRand()` and `G4RandGauss::shoot` draw from a `G4Random` source, an
  arbitrary sequence of outcomes together with the number of draws made so far.
* The last section states the unit vector of the spec in exact arithmetic
  (`G4ThreeVector.exactUnit`); it is not used by the embedding of the source.
-/

/-- Three-vector of `G4double` components (CLHEP `Hep3Vector`). -/
structure G4ThreeVector (α : Type) where
  x : α
  y : α
  z : α
deriving DecidableEq

/-- Default constructor `G4ThreeVector()`: the zero vector. -/
def G4ThreeVector.zero {α : Type} [LinearOrderedField α] : G4ThreeVector α :=
  ⟨0, 0, 0⟩

/-- Vector sum, `operator+`. -/
def G4ThreeVector.add {α : Type} [LinearOrderedField α]
    (a b : G4ThreeVector α) : G4ThreeVector α :=
  ⟨a.x + b.x, a.y + b.y, a.z + b.z⟩

/-- Vector difference, `operator-` and `operator-=`. -/
def G4ThreeVector.sub {α : Type} [LinearOrderedField α]
    (a b : G4ThreeVector α) : G4ThreeVector α :=
  ⟨a.x - b.x, a.y - b.y, a.z - b.z⟩

/-- Unary minus. -/
def G4ThreeVector.neg {α : Type} [LinearOrderedField α]
    (a : G4ThreeVector α) : G4ThreeVector α :=
  ⟨-a.x, -a.y, -a.z⟩

/-- Scaling by a scalar, `operator*=`: every component is multiplied by `a`. -/
def G4ThreeVector.mul {α : Type} [LinearOrderedField α]
    (v : G4ThreeVector α) (a : α) : G4ThreeVector α :=
  ⟨v.x * a, v.y * a, v.z * a⟩

/-- Squared length, `mag2()`. -/
def G4ThreeVector.mag2 {α : Type} [LinearOrderedField α] (v : G4ThreeVector α) : α :=
  v.x * v.x + v.y * v.y + v.z * v.z

/-- What the caller of a function declared `const G4ThreeVector&` holds: a reference
to an object that is still alive, or a reference to a temporary of the callee, which
was destroyed when the callee returned.  `value` is what the object holds, or held
when it was destroyed. -/
inductive G4ThreeVectorRef (α : Type) where
  | alive (value : G4ThreeVector α)
  | destroyedTemporary (value : G4ThreeVector α)
deriving DecidableEq

/-- Reading the vector through a reference (copying it, negating it, assigning from
it): defined while the object is alive, undefined once it is destroyed. -/
def G4ThreeVectorRef.read {α : Type} : G4ThreeVectorRef α → Option (G4ThreeVector α)
  | G4ThreeVectorRef.alive value => some value
  | G4ThreeVectorRef.destroyedTemporary _ => none

/-- Order of evaluation of the three arguments of the two `G4ThreeVector(...)`
constructor calls in `RandomiseDirection`: `uniform i` (`gauss i`) is the rank, among
the three draws, of the draw that becomes component `i` (0 for x, 1 for y, 2 for z). -/
structure G4ArgumentOrder where
  uniform : Equiv.Perm (Fin 3)
  gauss : Equiv.Perm (Fin 3)

/-- One call issued to the particle gun (`G4ParticleGun`). -/
inductive G4ParticleGunCall (α : Type) where
  | SetParticleDefinition (particleName : String)
  | SetParticleEnergy (energy : α)
  | SetParticlePosition (position : G4ThreeVector α)
  | SetParticleMomentumDirection (direction : G4ThreeVector α)
  | GeneratePrimaryVertex
deriving DecidableEq

/-- One diagnostic written to `G4cerr`. -/
inductive G4cerrLine (α : Type) where
  /-- Text "Gun position must be inside lab volume". -/
  | gunOutsideLab
  /-- Text "Cannot aim gun at (0, 0, 0) since gunPosition = (0, 0, 0); gun direction
  remains at: " followed by the current gun direction. -/
  | cannotAimAtOrigin (gunDirection : G4ThreeVector α)
  /-- Text "Cannot aim gun at current gunPosition: " followed by the gun position and
  "; gun direction unchanged". -/
  | cannotAimAtGunPosition (gunPosition : G4ThreeVector α)
deriving DecidableEq

/-- Random sampling provider: `flat n` is the outcome of the `n`-th draw when it is a
`G4UniformRand()`, `shoot n mean sigma` its outcome when it is a
`G4RandGauss::shoot(mean, sigma)`, and `drawn` counts the draws made so far. -/
structure G4Random (α : Type) where
  flat : Nat → α
  shoot : Nat → α → α → α
  drawn : Nat

/-- Outcome of the `G4UniformRand()` call evaluated `rank`-th from now (rank 0 is the
next draw). -/
def G4Random.G4UniformRand {α : Type} (rng : G4Random α) (rank : Nat) : α :=
  rng.flat (rng.drawn + rank)

/-- Outcome of the `G4RandGauss::shoot(mean, sigma)` call evaluated `rank`-th from
now. -/
def G4Random.G4RandGaussShoot {α : Type} (rng : G4Random α) (rank : Nat)
    (mean sigma : α) : α :=
  rng.shoot (rng.drawn + rank) mean sigma

/-- The source after `n` draws. -/
def G4Random.advance {α : Type} (rng : G4Random α) (n : Nat) : G4Random α :=
  { rng with drawn := rng.drawn + n }

/-- Data members of `MyPrimaryGeneratorAction`. -/
structure MyPrimaryGeneratorAction (α : Type) where
  /-- Calls issued to the owned `G4ParticleGun`, oldest first. -/
  particleGun : List (G4ParticleGunCall α)
  halfLabSize : G4ThreeVector α
  gunPosition : G4ThreeVector α
  gunDirection : G4ThreeVector α
  gunEnergy : α
  beamDispersionOn : Bool
  randomDistribution : String
  amplitudeOrSigma : α
  gunParticleName : String
  gunEnergyAndUnit : String

/-- Modelled from the spec: the header `MyPrimaryGeneratorAction.hh` with the default
member initialisers is absent; the spec gives direction toward +z and dispersion off.
The default energy, distribution kind, amplitude and report strings are parameters.
The body follows the constructor of the source: the gun starts on the negative-z face
of the lab and the particle gun receives the electron, the energy and the position. -/
def MyPrimaryGeneratorAction.new {α : Type} [LinearOrderedField α]
    (gunEnergy : α) (randomDistribution : String) (amplitudeOrSigma : α)
    (gunParticleName gunEnergyAndUnit : String)
    (halfLabSize : G4ThreeVector α) : MyPrimaryGeneratorAction α :=
  let gunPosition : G4ThreeVector α := ⟨0, 0, -halfLabSize.z⟩
  { particleGun :=
      [G4ParticleGunCall.SetParticleDefinition "e-",
       G4ParticleGunCall.SetParticleEnergy gunEnergy,
       G4ParticleGunCall.SetParticlePosition gunPosition]
    halfLabSize := halfLabSize
    gunPosition := gunPosition
    gunDirection := ⟨0, 0, 1⟩
    gunEnergy := gunEnergy
    beamDispersionOn := false
    randomDistribution := randomDistribution
    amplitudeOrSigma := amplitudeOrSigma
    gunParticleName := gunParticleName
    gunEnergyAndUnit := gunEnergyAndUnit }

/-- Source `IsGunInsideLab`: every coordinate is within the half lab size, bounds
included. -/
def MyPrimaryGeneratorAction.IsGunInsideLab {α : Type} [LinearOrderedField α]
    (self : MyPrimaryGeneratorAction α) (gunPosition : G4ThreeVector α) : Bool :=
  if abs gunPosition.x ≤ self.halfLabSize.x ∧
     abs gunPosition.y ≤ self.halfLabSize.y ∧
     abs gunPosition.z ≤ self.halfLabSize.z
  then true
  else false

/-- Source `SetGunPosition`: store the position when it is inside the lab, otherwise
write a diagnostic and change nothing. -/
def MyPrimaryGeneratorAction.SetGunPosition {α : Type} [LinearOrderedField α]
    (self : MyPrimaryGeneratorAction α) (gunPosition : G4ThreeVector α) :
    MyPrimaryGeneratorAction α × List (G4cerrLine α) :=
  if self.IsGunInsideLab gunPosition = true then
    ({ self with gunPosition := gunPosition }, [])
  else
    (self, [G4cerrLine.gunOutsideLab])

/-- Source `ObtainUnitThreeVector`: `return aThreeVector.unit();` with return type
`const G4ThreeVector&`.  `unit()` returns a vector by value; the reference is bound to
that temporary, which is destroyed at the end of the return statement. -/
def MyPrimaryGeneratorAction.ObtainUnitThreeVector {α : Type}
    (unit : G4ThreeVector α → G4ThreeVector α) (aThreeVector : G4ThreeVector α) :
    G4ThreeVectorRef α :=
  G4ThreeVectorRef.destroyedTemporary (unit aThreeVector)

/-- Source `SetGunDirection`: a zero argument aims the gun at the origin (or writes a
diagnostic when the gun is at the origin), any other argument is normalised and
stored.  Both assignments read the vector through the reference returned by
`ObtainUnitThreeVector`. -/
def MyPrimaryGeneratorAction.SetGunDirection {α : Type} [LinearOrderedField α]
    (unit : G4ThreeVector α → G4ThreeVector α)
    (self : MyPrimaryGeneratorAction α) (gunDirection : G4ThreeVector α) :
    Option (MyPrimaryGeneratorAction α × List (G4cerrLine α)) :=
  let aimGunAtOrigin : Bool := if gunDirection = G4ThreeVector.zero then true else false
  if aimGunAtOrigin = true then
    if self.gunPosition ≠ G4ThreeVector.zero then
      (MyPrimaryGeneratorAction.ObtainUnitThreeVector unit self.gunPosition).read.map
        fun unitVector => ({ self with gunDirection := unitVector.neg }, [])
    else
      some (self, [G4cerrLine.cannotAimAtOrigin self.gunDirection])
  else
    (MyPrimaryGeneratorAction.ObtainUnitThreeVector unit gunDirection).read.map
      fun unitVector => ({ self with gunDirection := unitVector }, [])

/-- Source `SetGunDirectionAimAtPosition`: point the gun from its position to the
target, or write a diagnostic when the target is the gun position.  The assignment
reads the vector through the reference returned by `ObtainUnitThreeVector`. -/
def MyPrimaryGeneratorAction.SetGunDirectionAimAtPosition {α : Type}
    [LinearOrderedField α] (unit : G4ThreeVector α → G4ThreeVector α)
    (self : MyPrimaryGeneratorAction α) (aimedPosition : G4ThreeVector α) :
    Option (MyPrimaryGeneratorAction α × List (G4cerrLine α)) :=
  if aimedPosition = self.gunPosition then
    some (self, [G4cerrLine.cannotAimAtGunPosition self.gunPosition])
  else
    (MyPrimaryGeneratorAction.ObtainUnitThreeVector unit
      (aimedPosition.sub self.gunPosition)).read.map
      fun unitVector => ({ self with gunDirection := unitVector }, [])

/-- Source `RandomiseDirection`: the direction plus a random offset chosen by the
stored distribution kind.  The sum `gunDirection + randomiseDirection` is a temporary
and the declared return type is `const G4ThreeVector&`, so the caller receives a
reference to a destroyed temporary, together with the advanced random source. -/
def MyPrimaryGeneratorAction.RandomiseDirection {α : Type} [LinearOrderedField α]
    (order : G4ArgumentOrder) (self : MyPrimaryGeneratorAction α) (rng : G4Random α)
    (gunDirection : G4ThreeVector α) : G4ThreeVectorRef α × G4Random α :=
  let randomiseDirection : G4ThreeVector α := G4ThreeVector.zero
  if self.randomDistribution = "u" ∨ self.randomDistribution = "uniform" then
    let randomiseDirection : G4ThreeVector α :=
      ⟨rng.G4UniformRand (order.uniform 0).val, rng.G4UniformRand (order.uniform 1).val,
        rng.G4UniformRand (order.uniform 2).val⟩
    let randomiseDirection := randomiseDirection.sub ⟨0.5, 0.5, 0.5⟩
    let randomiseDirection := randomiseDirection.mul self.amplitudeOrSigma
    (G4ThreeVectorRef.destroyedTemporary (gunDirection.add randomiseDirection),
      rng.advance 3)
  else if self.randomDistribution = "g" ∨ self.randomDistribution = "gaussian"
      ∨ self.randomDistribution = "Gaussian" then
    let randomiseDirection : G4ThreeVector α :=
      ⟨rng.G4RandGaussShoot (order.gauss 0).val 0 self.amplitudeOrSigma,
        rng.G4RandGaussShoot (order.gauss 1).val 0 self.amplitudeOrSigma,
        rng.G4RandGaussShoot (order.gauss 2).val 0 self.amplitudeOrSigma⟩
    (G4ThreeVectorRef.destroyedTemporary (gunDirection.add randomiseDirection),
      rng.advance 3)
  else
    (G4ThreeVectorRef.destroyedTemporary (gunDirection.add randomiseDirection), rng)

/-- Source `SetBeamDistribution`: store the distribution kind and its scale. -/
def MyPrimaryGeneratorAction.SetBeamDistribution {α : Type}
    (self : MyPrimaryGeneratorAction α) (randomDistribution : String)
    (amplitudeOrSigma : α) : MyPrimaryGeneratorAction α :=
  { self with randomDistribution := randomDistribution
              amplitudeOrSigma := amplitudeOrSigma }

/-- Source `GeneratePrimaries`: hand position and direction to the particle gun,
generate the vertex, then record the species name and the formatted energy read back
from the particle gun (`particleName`, `energyAndUnit`).  With dispersion on the
direction handed over is read through the reference returned by
`RandomiseDirection`. -/
def MyPrimaryGeneratorAction.GeneratePrimaries {α : Type} [LinearOrderedField α]
    (order : G4ArgumentOrder) (particleName energyAndUnit : String)
    (self : MyPrimaryGeneratorAction α) (rng : G4Random α) :
    Option (MyPrimaryGeneratorAction α × G4Random α) :=
  let gun1 := self.particleGun ++ [G4ParticleGunCall.SetParticlePosition self.gunPosition]
  let handed : Option (List (G4ParticleGunCall α) × G4Random α) :=
    if self.beamDispersionOn = true then
      let randomised := self.RandomiseDirection order rng self.gunDirection
      randomised.1.read.map fun direction =>
        (gun1 ++ [G4ParticleGunCall.SetParticleMomentumDirection direction], randomised.2)
    else
      some (gun1 ++ [G4ParticleGunCall.SetParticleMomentumDirection self.gunDirection], rng)
  handed.map fun gunAndRandom =>
    ({ self with particleGun := gunAndRandom.1 ++ [G4ParticleGunCall.GeneratePrimaryVertex]
                 gunParticleName := particleName
                 gunEnergyAndUnit := energyAndUnit }, gunAndRandom.2)

/-- Contract of a square root in exact arithmetic: on a positive argument the result
is positive and squares to the argument. -/
def SqrtExact {α : Type} [LinearOrderedField α] (sqrt : α → α) : Prop :=
  ∀ t : α, 0 < t → 0 < sqrt t ∧ sqrt t * sqrt t = t

/-- Unit vector in the sense of the spec, in exact arithmetic: the vector scaled by one
over its length; a vector of squared length zero is left as it is.  This is the
mathematical notion the spec refers to, not the computation of the source on
doubles. -/
def G4ThreeVector.exactUnit {α : Type} [LinearOrderedField α] (sqrt : α → α)
    (v : G4ThreeVector α) : G4ThreeVector α :=
  if v.mag2 > 0 then v.mul (1 / sqrt v.mag2) else v

/-- Gun on the negative-z face of a lab with half size (10, 10, 10), over the
rationals. -/
def labGun : MyPrimaryGeneratorAction ℚ :=
  MyPrimaryGeneratorAction.new 1 "u" 0 "" "" ⟨10, 10, 10⟩

/-- Gun on the negative-z face of a lab with half size (10, 10, 10), over any field. -/
def labGunOver (α : Type) [LinearOrderedField α] : MyPrimaryGeneratorAction α :=
  MyPrimaryGeneratorAction.new 1 "u" 0 "" "" ⟨10, 10, 10⟩

/-- Gun moved to the origin of the lab of half size (10, 10, 10), over the rationals. -/
def originGun : MyPrimaryGeneratorAction ℚ :=
  (labGun.SetGunPosition G4ThreeVector.zero).1

/-- Random source over the rationals used in the examples: the uniform draws are
1/2, 1/3, 1/4, ... and a Gaussian draw number `n` is `mean + sigma * (n - 1)`. -/
def sampleRandom : G4Random ℚ :=
  { flat := fun n => 1 / (n + 2)
    shoot := fun n mean sigma => mean + sigma * (n - 1)
    drawn := 0 }

/-- Gun with dispersion kind "x" and amplitude 7, over the rationals. -/
def kindXGun : MyPrimaryGeneratorAction ℚ :=
  labGun.SetBeamDistribution "x" 7

/-- Gun with dispersion kind "uniform" and amplitude 2, over the rationals. -/
def uniformGun : MyPrimaryGeneratorAction ℚ :=
  labGun.SetBeamDistribution "uniform" 2

/-- Gun with dispersion kind "g" and sigma 1, over the rationals. -/
def gaussianGun : MyPrimaryGeneratorAction ℚ :=
  labGun.SetBeamDistribution "g" 1

/-- The state with the dispersion flag on; the flag is written by the command
`/beam/dispersionOn`, whose setter is in the absent header. -/
def dispersionOn {α : Type} (self : MyPrimaryGeneratorAction α) :
    MyPrimaryGeneratorAction α :=
  { self with beamDispersionOn := true }

/-- Arguments evaluated left to right. -/
def leftToRight : G4ArgumentOrder :=
  { uniform := Equiv.refl (Fin 3), gauss := Equiv.refl (Fin 3) }

/-- Arguments evaluated right to left. -/
def rightToLeft : G4ArgumentOrder :=
  { uniform := Equiv.swap 0 2, gauss := Equiv.swap 0 2 }

/-- A stand-in for `unit()` over the rationals in the examples: the identity. -/
def sampleUnit : G4ThreeVector ℚ → G4ThreeVector ℚ :=
  fun v => v

/-! ## Position setter -/

/-- C1: a position whose three coordinates are within the half lab size in absolute
value (bounds included) is accepted by `SetGunPosition`: the inside-lab test is true,
nothing is written to `G4cerr`, and the stored gun position afterwards is exactly the
argument. -/
theorem SetGunPosition_inside_accepts {α : Type} [LinearOrderedField α]
    (self : MyPrimaryGeneratorAction α) (p : G4ThreeVector α)
    (hx : abs p.x ≤ self.halfLabSize.x) (hy : abs p.y ≤ self.halfLabSize.y)
    (hz : abs p.z ≤ self.halfLabSize.z) :
    self.IsGunInsideLab p = true ∧
    (self.SetGunPosition p).2 = [] ∧
    (self.SetGunPosition p).1.gunPosition = p := by
  have hin : self.IsGunInsideLab p = true := by
    simp [MyPrimaryGeneratorAction.IsGunInsideLab, hx, hy, hz]
  simp [MyPrimaryGeneratorAction.SetGunPosition, hin]

/-- Witness for C1: the point (10, -10, 3), on two faces of the lab of half size
(10, 10, 10), is accepted and stored. -/
theorem SetGunPosition_inside_accepts_witness :
    labGun.IsGunInsideLab ⟨10, -10, 3⟩ = true ∧
    (labGun.SetGunPosition ⟨10, -10, 3⟩).2 = [] ∧
    (labGun.SetGunPosition ⟨10, -10, 3⟩).1.gunPosition = ⟨10, -10, 3⟩ :=
  SetGunPosition_inside_accepts labGun ⟨10, -10, 3⟩
    (by norm_num [labGun, MyPrimaryGeneratorAction.new])
    (by norm_num [labGun, MyPrimaryGeneratorAction.new])
    (by norm_num [labGun, MyPrimaryGeneratorAction.new])

/-- C2: a position that violates at least one of the three bounds is rejected by
`SetGunPosition`: the call returns, writes the diagnostic "Gun position must be inside
lab volume", and the whole state (position, direction, dispersion settings and every
other member) equals the prior state. -/
theorem SetGunPosition_outside_rejects {α : Type} [LinearOrderedField α]
    (self : MyPrimaryGeneratorAction α) (p : G4ThreeVector α)
    (hout : ¬ (abs p.x ≤ self.halfLabSize.x ∧ abs p.y ≤ self.halfLabSize.y ∧
      abs p.z ≤ self.halfLabSize.z)) :
    self.IsGunInsideLab p = false ∧
    self.SetGunPosition p = (self, [G4cerrLine.gunOutsideLab]) := by
  have hin : self.IsGunInsideLab p = false := by
    simp only [MyPrimaryGeneratorAction.IsGunInsideLab, if_neg hout]
  simp [MyPrimaryGeneratorAction.SetGunPosition, hin]

/-- Witness for C2: the point (20, 0, 0) is outside the lab of half size (10, 10, 10). -/
theorem SetGunPosition_outside_rejects_witness :
    labGun.IsGunInsideLab ⟨20, 0, 0⟩ = false ∧
    labGun.SetGunPosition ⟨20, 0, 0⟩ = (labGun, [G4cerrLine.gunOutsideLab]) :=
  SetGunPosition_outside_rejects labGun ⟨20, 0, 0⟩
    (by norm_num [labGun, MyPrimaryGeneratorAction.new])

/-! ## References to destroyed temporaries -/

/-- The vector cannot be read through the reference `ObtainUnitThreeVector` returns. -/
theorem MyPrimaryGeneratorAction.ObtainUnitThreeVector_read {α : Type}
    (unit : G4ThreeVector α → G4ThreeVector α) (v : G4ThreeVector α) :
    (MyPrimaryGeneratorAction.ObtainUnitThreeVector unit v).read = none :=
  rfl

/-- The vector cannot be read through the reference `RandomiseDirection` returns. -/
theorem MyPrimaryGeneratorAction.RandomiseDirection_read {α : Type} [LinearOrderedField α]
    (order : G4ArgumentOrder) (self : MyPrimaryGeneratorAction α) (rng : G4Random α)
    (d : G4ThreeVector α) :
    (self.RandomiseDirection order rng d).1.read = none := by
  unfold MyPrimaryGeneratorAction.RandomiseDirection
  split_ifs <;> rfl

/-- With dispersion on `GeneratePrimaries` has no defined result. -/
theorem MyPrimaryGeneratorAction.GeneratePrimaries_on {α : Type} [LinearOrderedField α]
    (order : G4ArgumentOrder) (particleName energyAndUnit : String)
    (self : MyPrimaryGeneratorAction α) (rng : G4Random α)
    (hon : self.beamDispersionOn = true) :
    self.GeneratePrimaries order particleName energyAndUnit rng = none := by
  simp [MyPrimaryGeneratorAction.GeneratePrimaries, hon,
    MyPrimaryGeneratorAction.RandomiseDirection_read]

/-- With dispersion off `GeneratePrimaries` hands over position and stored direction,
asks for one vertex and records the two report strings. -/
theorem MyPrimaryGeneratorAction.GeneratePrimaries_off {α : Type} [LinearOrderedField α]
    (order : G4ArgumentOrder) (particleName energyAndUnit : String)
    (self : MyPrimaryGeneratorAction α) (rng : G4Random α)
    (hoff : self.beamDispersionOn = false) :
    self.GeneratePrimaries order particleName energyAndUnit rng =
      some ({ self with
                particleGun := self.particleGun ++
                  [G4ParticleGunCall.SetParticlePosition self.gunPosition,
                   G4ParticleGunCall.SetParticleMomentumDirection self.gunDirection,
                   G4ParticleGunCall.GeneratePrimaryVertex]
                gunParticleName := particleName
                gunEnergyAndUnit := energyAndUnit }, rng) := by
  simp [MyPrimaryGeneratorAction.GeneratePrimaries, hoff]

/-! ## Direction setters: the branches that only write a diagnostic -/

/-- C5: when the gun position is the origin, `SetGunDirection (0, 0, 0)` returns and
changes no member of the state; it only writes the diagnostic that the gun cannot be
aimed at the origin, quoting the (unchanged) direction. -/
theorem SetGunDirection_zero_at_origin_noop {α : Type} [LinearOrderedField α]
    (unit : G4ThreeVector α → G4ThreeVector α) (self : MyPrimaryGeneratorAction α)
    (hp : self.gunPosition = G4ThreeVector.zero) :
    self.SetGunDirection unit G4ThreeVector.zero =
      some (self, [G4cerrLine.cannotAimAtOrigin self.gunDirection]) ∧
    (self.SetGunDirection unit G4ThreeVector.zero).map (fun result => result.1.gunDirection)
      = some self.gunDirection := by
  simp [MyPrimaryGeneratorAction.SetGunDirection, hp]

/-- Witness for C5: the gun moved to the origin keeps its direction (0, 0, 1). -/
theorem SetGunDirection_zero_at_origin_noop_witness :
    originGun.gunPosition = G4ThreeVector.zero ∧
    originGun.gunDirection = ⟨0, 0, 1⟩ ∧
    (originGun.SetGunDirection sampleUnit G4ThreeVector.zero).map
      (fun result => result.1.gunDirection) = some originGun.gunDirection :=
  have hp : originGun.gunPosition = G4ThreeVector.zero := by
    simp [originGun, labGun, MyPrimaryGeneratorAction.new,
      MyPrimaryGeneratorAction.SetGunPosition, MyPrimaryGeneratorAction.IsGunInsideLab,
      G4ThreeVector.zero]
  have hd : originGun.gunDirection = ⟨0, 0, 1⟩ := by
    simp [originGun, labGun, MyPrimaryGeneratorAction.new,
      MyPrimaryGeneratorAction.SetGunPosition, MyPrimaryGeneratorAction.IsGunInsideLab,
      G4ThreeVector.zero]
  ⟨hp, hd, (SetGunDirection_zero_at_origin_noop sampleUnit originGun hp).2⟩

/-- C7: `SetGunDirectionAimAtPosition` with the current gun position as target returns
and changes no member of the state, the direction included; it only writes the
diagnostic that the gun cannot be aimed at its own position. -/
theorem SetGunDirectionAimAtPosition_self_noop {α : Type} [LinearOrderedField α]
    (unit : G4ThreeVector α → G4ThreeVector α) (self : MyPrimaryGeneratorAction α) :
    self.SetGunDirectionAimAtPosition unit self.gunPosition =
      some (self, [G4cerrLine.cannotAimAtGunPosition self.gunPosition]) ∧
    (self.SetGunDirectionAimAtPosition unit self.gunPosition).map
      (fun result => result.1.gunDirection) = some self.gunDirection := by
  simp [MyPrimaryGeneratorAction.SetGunDirectionAimAtPosition]

/-! ## Firing with dispersion off -/

/-- C8: with the dispersion flag off, whatever the stored direction, the distribution
kind, the amplitude and the random source, `GeneratePrimaries` returns, having handed
the particle gun the stored position, then exactly the stored direction, then the
request for the vertex; no random sample is drawn. -/
theorem GeneratePrimaries_dispersion_off {α : Type} [LinearOrderedField α]
    (order : G4ArgumentOrder) (particleName energyAndUnit : String)
    (self : MyPrimaryGeneratorAction α) (rng : G4Random α)
    (hoff : self.beamDispersionOn = false) :
    (self.GeneratePrimaries order particleName energyAndUnit rng).map
      (fun result => result.1.particleGun) =
      some (self.particleGun ++
        [G4ParticleGunCall.SetParticlePosition self.gunPosition,
         G4ParticleGunCall.SetParticleMomentumDirection self.gunDirection,
         G4ParticleGunCall.GeneratePrimaryVertex]) ∧
    (self.GeneratePrimaries order particleName energyAndUnit rng).map
      (fun result => result.2) = some rng := by
  rw [MyPrimaryGeneratorAction.GeneratePrimaries_off order particleName energyAndUnit
    self rng hoff]
  exact ⟨rfl, rfl⟩

/-- Witness for C8: the freshly constructed gun has dispersion off and fires along its
stored direction (0, 0, 1). -/
theorem GeneratePrimaries_dispersion_off_witness :
    labGun.beamDispersionOn = false ∧
    (labGun.GeneratePrimaries rightToLeft "e-" "1 MeV" sampleRandom).map
      (fun result => result.1.particleGun) =
      some (labGun.particleGun ++
        [G4ParticleGunCall.SetParticlePosition labGun.gunPosition,
         G4ParticleGunCall.SetParticleMomentumDirection labGun.gunDirection,
         G4ParticleGunCall.GeneratePrimaryVertex]) ∧
    (labGun.GeneratePrimaries rightToLeft "e-" "1 MeV" sampleRandom).map
      (fun result => result.2) = some sampleRandom :=
  ⟨rfl, GeneratePrimaries_dispersion_off rightToLeft "e-" "1 MeV" labGun sampleRandom rfl⟩

/-! ## Frame lemmas and the position invariant -/

/-- C3, the code at a vector `d` other than zero: `SetGunDirection d` takes the
else-branch and assigns from the reference returned by `ObtainUnitThreeVector d`.  That
reference is bound to the temporary `d.unit()`, already destroyed, so the read is
undefined and the call has no defined result: no unit vector is stored. -/
theorem SetGunDirection_nonzero_reads_destroyed_temporary {α : Type} [LinearOrderedField α]
    (unit : G4ThreeVector α → G4ThreeVector α) (self : MyPrimaryGeneratorAction α)
    (d : G4ThreeVector α) (hd : d ≠ G4ThreeVector.zero) :
    MyPrimaryGeneratorAction.ObtainUnitThreeVector unit d =
      G4ThreeVectorRef.destroyedTemporary (unit d) ∧
    (MyPrimaryGeneratorAction.ObtainUnitThreeVector unit d).read = none ∧
    self.SetGunDirection unit d = none := by
  refine ⟨rfl, rfl, ?_⟩
  simp [MyPrimaryGeneratorAction.SetGunDirection, hd,
    MyPrimaryGeneratorAction.ObtainUnitThreeVector_read]

/-- Witness for C3: the direction (3, 0, 4) on the gun of the lab of half size
(10, 10, 10). -/
theorem SetGunDirection_nonzero_reads_destroyed_temporary_witness :
    (⟨3, 0, 4⟩ : G4ThreeVector ℚ) ≠ G4ThreeVector.zero ∧
    labGun.SetGunDirection sampleUnit ⟨3, 0, 4⟩ = none :=
  have hd : (⟨3, 0, 4⟩ : G4ThreeVector ℚ) ≠ G4ThreeVector.zero := by
    simp [G4ThreeVector.zero]
  ⟨hd, (SetGunDirection_nonzero_reads_destroyed_temporary sampleUnit labGun ⟨3, 0, 4⟩
    hd).2.2⟩

/-- C4, the code at a gun position `p` other than the origin: `SetGunDirection (0, 0, 0)`
negates the vector read through the reference returned by `ObtainUnitThreeVector p`.
That reference is bound to the destroyed temporary `p.unit()`, so the read is undefined
and the call has no defined result: `-unit(p)` is not stored. -/
theorem SetGunDirection_zero_reads_destroyed_temporary {α : Type} [LinearOrderedField α]
    (unit : G4ThreeVector α → G4ThreeVector α) (self : MyPrimaryGeneratorAction α)
    (hp : self.gunPosition ≠ G4ThreeVector.zero) :
    MyPrimaryGeneratorAction.ObtainUnitThreeVector unit self.gunPosition =
      G4ThreeVectorRef.destroyedTemporary (unit self.gunPosition) ∧
    self.SetGunDirection unit G4ThreeVector.zero = none := by
  refine ⟨rfl, ?_⟩
  simp [MyPrimaryGeneratorAction.SetGunDirection, hp,
    MyPrimaryGeneratorAction.ObtainUnitThreeVector_read]

/-- Witness for C4: the constructed gun of the lab of half size (10, 10, 10) sits at
(0, 0, -10), which is not the origin. -/
theorem SetGunDirection_zero_reads_destroyed_temporary_witness :
    labGun.gunPosition = ⟨0, 0, -10⟩ ∧
    labGun.gunPosition ≠ G4ThreeVector.zero ∧
    labGun.SetGunDirection sampleUnit G4ThreeVector.zero = none :=
  have hp : labGun.gunPosition ≠ G4ThreeVector.zero := by
    simp [labGun, MyPrimaryGeneratorAction.new, G4ThreeVector.zero]
  ⟨rfl, hp, (SetGunDirection_zero_reads_destroyed_temporary sampleUnit labGun hp).2⟩

/-- C6, the code at a target `t` other than the gun position `p`:
`SetGunDirectionAimAtPosition t` assigns from the reference returned by
`ObtainUnitThreeVector (t - p)`.  That reference is bound to the destroyed temporary
`(t - p).unit()`, so the read is undefined and the call has no defined result:
`unit(t - p)` is not stored. -/
theorem SetGunDirectionAimAtPosition_reads_destroyed_temporary {α : Type}
    [LinearOrderedField α] (unit : G4ThreeVector α → G4ThreeVector α)
    (self : MyPrimaryGeneratorAction α) (t : G4ThreeVector α)
    (ht : t ≠ self.gunPosition) :
    MyPrimaryGeneratorAction.ObtainUnitThreeVector unit (t.sub self.gunPosition) =
      G4ThreeVectorRef.destroyedTemporary (unit (t.sub self.gunPosition)) ∧
    self.SetGunDirectionAimAtPosition unit t = none := by
  refine ⟨rfl, ?_⟩
  simp [MyPrimaryGeneratorAction.SetGunDirectionAimAtPosition, ht,
    MyPrimaryGeneratorAction.ObtainUnitThreeVector_read]

/-- Witness for C6: aiming the gun at (0, 0, -10) towards the target (5, 5, 5). -/
theorem SetGunDirectionAimAtPosition_reads_destroyed_temporary_witness :
    (⟨5, 5, 5⟩ : G4ThreeVector ℚ) ≠ labGun.gunPosition ∧
    labGun.SetGunDirectionAimAtPosition sampleUnit ⟨5, 5, 5⟩ = none :=
  have ht : (⟨5, 5, 5⟩ : G4ThreeVector ℚ) ≠ labGun.gunPosition := by
    simp [labGun, MyPrimaryGeneratorAction.new]
  ⟨ht, (SetGunDirectionAimAtPosition_reads_destroyed_temporary sampleUnit labGun
    ⟨5, 5, 5⟩ ht).2⟩

/-- C13, the code on a state whose direction has length one: the constructed gun has
direction (0, 0, 1), of squared length 1, and `SetGunDirection (3, 0, 4)`,
`SetGunDirection (0, 0, 0)` and `SetGunDirectionAimAtPosition (5, 5, 5)` each read the
destroyed temporary behind `ObtainUnitThreeVector` and have no defined result, so no
direction of length one is stored by them. -/
theorem direction_setters_have_no_result_on_unit_state
    (unit : G4ThreeVector ℚ → G4ThreeVector ℚ) :
    labGun.gunDirection = ⟨0, 0, 1⟩ ∧
    labGun.gunDirection.mag2 = 1 ∧
    labGun.SetGunDirection unit ⟨3, 0, 4⟩ = none ∧
    labGun.SetGunDirection unit G4ThreeVector.zero = none ∧
    labGun.SetGunDirectionAimAtPosition unit ⟨5, 5, 5⟩ = none := by
  refine ⟨rfl, ?_, ?_, ?_, ?_⟩
  · simp [labGun, MyPrimaryGeneratorAction.new, G4ThreeVector.mag2]
  · simp [MyPrimaryGeneratorAction.SetGunDirection, G4ThreeVector.zero,
      MyPrimaryGeneratorAction.ObtainUnitThreeVector_read]
  · simp [MyPrimaryGeneratorAction.SetGunDirection, labGun, MyPrimaryGeneratorAction.new,
      G4ThreeVector.zero, MyPrimaryGeneratorAction.ObtainUnitThreeVector_read]
  · simp [MyPrimaryGeneratorAction.SetGunDirectionAimAtPosition, labGun,
      MyPrimaryGeneratorAction.new, MyPrimaryGeneratorAction.ObtainUnitThreeVector_read]

/-- C19, the code at a gun position `p` other than the origin: both ways of aiming at
the origin, `SetGunDirection (0, 0, 0)` and `SetGunDirectionAimAtPosition (0, 0, 0)`,
read the destroyed temporary behind `ObtainUnitThreeVector` and have no defined result,
so neither stores `unit(-p)`. -/
theorem aim_at_origin_both_ways_read_destroyed_temporary {α : Type} [LinearOrderedField α]
    (unit : G4ThreeVector α → G4ThreeVector α) (self : MyPrimaryGeneratorAction α)
    (hp : self.gunPosition ≠ G4ThreeVector.zero) :
    self.SetGunDirection unit G4ThreeVector.zero = none ∧
    self.SetGunDirectionAimAtPosition unit G4ThreeVector.zero = none := by
  have hp2 : ¬ (G4ThreeVector.zero = self.gunPosition) := fun h => hp h.symm
  constructor
  · simp [MyPrimaryGeneratorAction.SetGunDirection, hp,
      MyPrimaryGeneratorAction.ObtainUnitThreeVector_read]
  · simp [MyPrimaryGeneratorAction.SetGunDirectionAimAtPosition, hp2,
      MyPrimaryGeneratorAction.ObtainUnitThreeVector_read]

/-- Witness for C19: the constructed gun at (0, 0, -10). -/
theorem aim_at_origin_both_ways_read_destroyed_temporary_witness :
    labGun.gunPosition ≠ G4ThreeVector.zero ∧
    labGun.SetGunDirection sampleUnit G4ThreeVector.zero = none ∧
    labGun.SetGunDirectionAimAtPosition sampleUnit G4ThreeVector.zero = none :=
  have hp : labGun.gunPosition ≠ G4ThreeVector.zero := by
    simp [labGun, MyPrimaryGeneratorAction.new, G4ThreeVector.zero]
  ⟨hp, aim_at_origin_both_ways_read_destroyed_temporary sampleUnit labGun hp⟩

/-! ## Firing with dispersion on -/

/-- C9, the code with kind "u" or "uniform" and amplitude zero: the temporary that
`RandomiseDirection d` builds holds `d`, but the function returns a reference to it
after its destruction, so the read is undefined; with dispersion on,
`GeneratePrimaries` performs that read and has no defined result: no direction is
handed to the particle gun. -/
theorem RandomiseDirection_uniform_zero_amplitude_unreadable {α : Type}
    [LinearOrderedField α] (order : G4ArgumentOrder) (self : MyPrimaryGeneratorAction α)
    (rng : G4Random α) (d : G4ThreeVector α) (particleName energyAndUnit : String)
    (hkind : self.randomDistribution = "u" ∨ self.randomDistribution = "uniform")
    (hamp : self.amplitudeOrSigma = 0) (hon : self.beamDispersionOn = true) :
    (self.RandomiseDirection order rng d).1 = G4ThreeVectorRef.destroyedTemporary d ∧
    (self.RandomiseDirection order rng d).1.read = none ∧
    self.GeneratePrimaries order particleName energyAndUnit rng = none := by
  refine ⟨?_, MyPrimaryGeneratorAction.RandomiseDirection_read order self rng d,
    MyPrimaryGeneratorAction.GeneratePrimaries_on order particleName energyAndUnit self
      rng hon⟩
  simp [MyPrimaryGeneratorAction.RandomiseDirection, hkind, hamp, G4ThreeVector.add,
    G4ThreeVector.mul, G4ThreeVector.sub]

/-- Witness for C9: the gun built with kind "u" and amplitude zero, dispersion switched
on, direction (1, 2, 3). -/
theorem RandomiseDirection_uniform_zero_amplitude_unreadable_witness :
    (dispersionOn labGun).randomDistribution = "u" ∧
    (dispersionOn labGun).amplitudeOrSigma = 0 ∧
    (dispersionOn labGun).beamDispersionOn = true ∧
    ((dispersionOn labGun).RandomiseDirection rightToLeft sampleRandom ⟨1, 2, 3⟩).1 =
      G4ThreeVectorRef.destroyedTemporary ⟨1, 2, 3⟩ ∧
    ((dispersionOn labGun).RandomiseDirection rightToLeft sampleRandom ⟨1, 2, 3⟩).1.read =
      none ∧
    (dispersionOn labGun).GeneratePrimaries rightToLeft "e-" "1 MeV" sampleRandom = none :=
  ⟨rfl, rfl, rfl,
    RandomiseDirection_uniform_zero_amplitude_unreadable rightToLeft (dispersionOn labGun)
      sampleRandom ⟨1, 2, 3⟩ "e-" "1 MeV" (Or.inl rfl) rfl rfl⟩

/-- C10, the code with a kind that is none of "u", "uniform", "g", "gaussian",
"Gaussian": `RandomiseDirection d` draws no sample and builds a temporary that holds
`d`, but returns a reference to it after its destruction, so the read is undefined;
with dispersion on, `GeneratePrimaries` performs that read and has no defined
result. -/
theorem RandomiseDirection_unrecognised_kind_unreadable {α : Type} [LinearOrderedField α]
    (order : G4ArgumentOrder) (self : MyPrimaryGeneratorAction α) (rng : G4Random α)
    (d : G4ThreeVector α) (particleName energyAndUnit : String)
    (hu : self.randomDistribution ≠ "u") (huniform : self.randomDistribution ≠ "uniform")
    (hg : self.randomDistribution ≠ "g") (hgaussian : self.randomDistribution ≠ "gaussian")
    (hGaussian : self.randomDistribution ≠ "Gaussian")
    (hon : self.beamDispersionOn = true) :
    self.RandomiseDirection order rng d = (G4ThreeVectorRef.destroyedTemporary d, rng) ∧
    (self.RandomiseDirection order rng d).1.read = none ∧
    self.GeneratePrimaries order particleName energyAndUnit rng = none := by
  refine ⟨?_, MyPrimaryGeneratorAction.RandomiseDirection_read order self rng d,
    MyPrimaryGeneratorAction.GeneratePrimaries_on order particleName energyAndUnit self
      rng hon⟩
  simp [MyPrimaryGeneratorAction.RandomiseDirection, hu, huniform, hg, hgaussian,
    hGaussian, G4ThreeVector.add, G4ThreeVector.zero]

/-- Witness for C10: kind "x" with amplitude 7 and dispersion on, direction
(1, 2, 3). -/
theorem RandomiseDirection_unrecognised_kind_unreadable_witness :
    (dispersionOn kindXGun).randomDistribution = "x" ∧
    (dispersionOn kindXGun).RandomiseDirection leftToRight sampleRandom ⟨1, 2, 3⟩ =
      (G4ThreeVectorRef.destroyedTemporary ⟨1, 2, 3⟩, sampleRandom) ∧
    (dispersionOn kindXGun).GeneratePrimaries leftToRight "e-" "1 MeV" sampleRandom =
      none :=
  have h := RandomiseDirection_unrecognised_kind_unreadable leftToRight
    (dispersionOn kindXGun) sampleRandom ⟨1, 2, 3⟩ "e-" "1 MeV"
    (by decide) (by decide) (by decide) (by decide) (by decide) rfl
  ⟨rfl, h.1, h.2.2⟩

/-- The uniform branch of `RandomiseDirection`: three draws, and a reference to the
destroyed temporary `d + ((u_x, u_y, u_z) - (0.5, 0.5, 0.5)) * a`. -/
theorem MyPrimaryGeneratorAction.RandomiseDirection_uniform {α : Type}
    [LinearOrderedField α] (order : G4ArgumentOrder) (self : MyPrimaryGeneratorAction α)
    (rng : G4Random α) (d : G4ThreeVector α)
    (hkind : self.randomDistribution = "u" ∨ self.randomDistribution = "uniform") :
    self.RandomiseDirection order rng d =
      (G4ThreeVectorRef.destroyedTemporary
        ⟨d.x + (rng.flat (rng.drawn + (order.uniform 0).val) - 0.5) * self.amplitudeOrSigma,
         d.y + (rng.flat (rng.drawn + (order.uniform 1).val) - 0.5) * self.amplitudeOrSigma,
         d.z + (rng.flat (rng.drawn + (order.uniform 2).val) - 0.5) * self.amplitudeOrSigma⟩,
       rng.advance 3) := by
  simp only [MyPrimaryGeneratorAction.RandomiseDirection, if_pos hkind,
    G4Random.G4UniformRand, G4ThreeVector.add, G4ThreeVector.sub, G4ThreeVector.mul]

/-- C14, the code with kind "u" or "uniform": `RandomiseDirection d` makes three draws
and builds the temporary `d + ((u_x, u_y, u_z) - (0.5, 0.5, 0.5)) * a`, not
renormalised, where which of the three draws becomes `u_x`, `u_y`, `u_z` is the
compiler's choice; it then returns a reference to that temporary after its destruction,
so the caller cannot read the sum: the read is undefined. -/
theorem RandomiseDirection_uniform_unreadable {α : Type} [LinearOrderedField α]
    (order : G4ArgumentOrder) (self : MyPrimaryGeneratorAction α) (rng : G4Random α)
    (d : G4ThreeVector α)
    (hkind : self.randomDistribution = "u" ∨ self.randomDistribution = "uniform") :
    self.RandomiseDirection order rng d =
      (G4ThreeVectorRef.destroyedTemporary
        ⟨d.x + (rng.flat (rng.drawn + (order.uniform 0).val) - 0.5) * self.amplitudeOrSigma,
         d.y + (rng.flat (rng.drawn + (order.uniform 1).val) - 0.5) * self.amplitudeOrSigma,
         d.z + (rng.flat (rng.drawn + (order.uniform 2).val) - 0.5) * self.amplitudeOrSigma⟩,
       rng.advance 3) ∧
    (self.RandomiseDirection order rng d).1.read = none := by
  exact ⟨MyPrimaryGeneratorAction.RandomiseDirection_uniform order self rng d hkind,
    MyPrimaryGeneratorAction.RandomiseDirection_read order self rng d⟩

/-- Witness for C14: kind "uniform" with amplitude 2, direction (0, 0, 1), arguments
evaluated right to left. -/
theorem RandomiseDirection_uniform_unreadable_witness :
    uniformGun.randomDistribution = "uniform" ∧
    (uniformGun.RandomiseDirection rightToLeft sampleRandom ⟨0, 0, 1⟩).1.read = none :=
  ⟨rfl, (RandomiseDirection_uniform_unreadable rightToLeft uniformGun sampleRandom
    ⟨0, 0, 1⟩ (Or.inr rfl)).2⟩

/-- C15, the code after `SetBeamDistribution k s`: the branch of `RandomiseDirection`
is chosen by exact, case-sensitive comparison of `k` (three draws are made exactly when
`k` is one of "u", "uniform", "g", "gaussian", "Gaussian"; for "U", "Uniform", "G" and
"" none is made), and on the Gaussian strings the temporary is `d` plus three
`G4RandGauss::shoot(0, s)` draws in the compiler's argument order.  Whatever `k` is,
the function returns a reference to the destroyed temporary, so the caller cannot read
the returned vector. -/
theorem RandomiseDirection_selects_by_exact_string_unreadable {α : Type}
    [LinearOrderedField α] (order : G4ArgumentOrder) (self : MyPrimaryGeneratorAction α)
    (k : String) (s : α) (rng : G4Random α) (d : G4ThreeVector α) :
    ((self.SetBeamDistribution k s).RandomiseDirection order rng d).1.read = none ∧
    ((k = "u" ∨ k = "uniform" ∨ k = "g" ∨ k = "gaussian" ∨ k = "Gaussian") →
      ((self.SetBeamDistribution k s).RandomiseDirection order rng d).2 = rng.advance 3) ∧
    (¬ (k = "u" ∨ k = "uniform" ∨ k = "g" ∨ k = "gaussian" ∨ k = "Gaussian") →
      ((self.SetBeamDistribution k s).RandomiseDirection order rng d).2 = rng) ∧
    ((k = "g" ∨ k = "gaussian" ∨ k = "Gaussian") →
      ((self.SetBeamDistribution k s).RandomiseDirection order rng d).1 =
        G4ThreeVectorRef.destroyedTemporary
          ⟨d.x + rng.shoot (rng.drawn + (order.gauss 0).val) 0 s,
           d.y + rng.shoot (rng.drawn + (order.gauss 1).val) 0 s,
           d.z + rng.shoot (rng.drawn + (order.gauss 2).val) 0 s⟩) ∧
    ((self.SetBeamDistribution "U" s).RandomiseDirection order rng d).2 = rng ∧
    ((self.SetBeamDistribution "Uniform" s).RandomiseDirection order rng d).2 = rng ∧
    ((self.SetBeamDistribution "G" s).RandomiseDirection order rng d).2 = rng ∧
    ((self.SetBeamDistribution "" s).RandomiseDirection order rng d).2 = rng := by
  have hnone : ∀ k2 : String,
      ¬ (k2 = "u" ∨ k2 = "uniform" ∨ k2 = "g" ∨ k2 = "gaussian" ∨ k2 = "Gaussian") →
      ((self.SetBeamDistribution k2 s).RandomiseDirection order rng d).2 = rng := by
    intro k2 hk2
    have hn1 : ¬ ((self.SetBeamDistribution k2 s).randomDistribution = "u" ∨
        (self.SetBeamDistribution k2 s).randomDistribution = "uniform") :=
      fun h => hk2 (by
        simp only [MyPrimaryGeneratorAction.SetBeamDistribution] at h
        tauto)
    have hn2 : ¬ ((self.SetBeamDistribution k2 s).randomDistribution = "g" ∨
        (self.SetBeamDistribution k2 s).randomDistribution = "gaussian" ∨
        (self.SetBeamDistribution k2 s).randomDistribution = "Gaussian") :=
      fun h => hk2 (by
        simp only [MyPrimaryGeneratorAction.SetBeamDistribution] at h
        tauto)
    simp only [MyPrimaryGeneratorAction.RandomiseDirection, if_neg hn1, if_neg hn2]
  have hgauss : (k = "g" ∨ k = "gaussian" ∨ k = "Gaussian") →
      (self.SetBeamDistribution k s).RandomiseDirection order rng d =
        (G4ThreeVectorRef.destroyedTemporary
          ⟨d.x + rng.shoot (rng.drawn + (order.gauss 0).val) 0 s,
           d.y + rng.shoot (rng.drawn + (order.gauss 1).val) 0 s,
           d.z + rng.shoot (rng.drawn + (order.gauss 2).val) 0 s⟩, rng.advance 3) := by
    intro hk
    have hnot : ¬ (k = "u" ∨ k = "uniform") := by
      rcases hk with h | h | h <;> subst h <;> decide
    have hnot2 : ¬ ((self.SetBeamDistribution k s).randomDistribution = "u" ∨
        (self.SetBeamDistribution k s).randomDistribution = "uniform") := hnot
    have hk2 : (self.SetBeamDistribution k s).randomDistribution = "g" ∨
        (self.SetBeamDistribution k s).randomDistribution = "gaussian" ∨
        (self.SetBeamDistribution k s).randomDistribution = "Gaussian" := hk
    simp only [MyPrimaryGeneratorAction.RandomiseDirection, if_neg hnot2, if_pos hk2,
      G4Random.G4RandGaussShoot, G4ThreeVector.add]
    rfl
  refine ⟨MyPrimaryGeneratorAction.RandomiseDirection_read order _ rng d, ?_, hnone k,
    fun hk => by rw [hgauss hk], hnone "U" (by decide), hnone "Uniform" (by decide),
    hnone "G" (by decide), hnone "" (by decide)⟩
  intro hk
  by_cases h1 : k = "u" ∨ k = "uniform"
  · have h1b : (self.SetBeamDistribution k s).randomDistribution = "u" ∨
        (self.SetBeamDistribution k s).randomDistribution = "uniform" := h1
    rw [MyPrimaryGeneratorAction.RandomiseDirection_uniform order
      (self.SetBeamDistribution k s) rng d h1b]
  · have h2 : k = "g" ∨ k = "gaussian" ∨ k = "Gaussian" := by tauto
    rw [hgauss h2]

/-- C17, the code with dispersion on: `GeneratePrimaries` copies the direction from the
reference returned by `RandomiseDirection`, which is bound to a destroyed temporary; the
read is undefined, whatever the distribution kind, and the call has no defined result:
the particle gun is not asked for a vertex. -/
theorem GeneratePrimaries_dispersion_on_reads_destroyed_temporary {α : Type}
    [LinearOrderedField α] (order : G4ArgumentOrder) (particleName energyAndUnit : String)
    (self : MyPrimaryGeneratorAction α) (rng : G4Random α)
    (hon : self.beamDispersionOn = true) :
    (self.RandomiseDirection order rng self.gunDirection).1.read = none ∧
    self.GeneratePrimaries order particleName energyAndUnit rng = none :=
  ⟨MyPrimaryGeneratorAction.RandomiseDirection_read order self rng self.gunDirection,
    MyPrimaryGeneratorAction.GeneratePrimaries_on order particleName energyAndUnit self
      rng hon⟩

/-- Witness for C17: the gun with kind "g", sigma 1 and dispersion on. -/
theorem GeneratePrimaries_dispersion_on_reads_destroyed_temporary_witness :
    (dispersionOn gaussianGun).beamDispersionOn = true ∧
    (dispersionOn gaussianGun).GeneratePrimaries leftToRight "e-" "1 MeV" sampleRandom =
      none :=
  ⟨rfl, (GeneratePrimaries_dispersion_on_reads_destroyed_temporary leftToRight "e-"
    "1 MeV" (dispersionOn gaussianGun) sampleRandom rfl).2⟩

/-! ## Concrete scenario and the unit vector of the spec -/

/-- The real square root is exact. -/
theorem Real_sqrt_exact : SqrtExact Real.sqrt := by
  intro t ht
  exact ⟨Real.sqrt_pos.mpr ht, Real.mul_self_sqrt ht.le⟩

/-- An exact square root of 275 lies between 16.583 and 16.584. -/
theorem SqrtExact.sqrt_275_bounds {α : Type} [LinearOrderedField α] {sqrt : α → α}
    (hs : SqrtExact sqrt) : 16.583 < sqrt 275 ∧ sqrt 275 < 16.584 := by
  obtain ⟨hpos, hsq⟩ := hs 275 (by norm_num)
  constructor
  · by_contra h
    push_neg at h
    nlinarith
  · by_contra h
    push_neg at h
    nlinarith

/-- From the constructed gun at (0, 0, -10) the target (5, 5, 5) lies along (5, 5, 15),
whose exact unit vector is (5, 5, 15) over the square root of 275. -/
theorem exactUnit_scenario {α : Type} [LinearOrderedField α] (sqrt : α → α) :
    (labGunOver α).gunPosition = ⟨0, 0, -10⟩ ∧
    G4ThreeVector.sub ⟨5, 5, 5⟩ (labGunOver α).gunPosition = ⟨5, 5, 15⟩ ∧
    G4ThreeVector.exactUnit sqrt ⟨5, 5, 15⟩ =
      ⟨5 / sqrt 275, 5 / sqrt 275, 15 / sqrt 275⟩ := by
  have hmag2 : G4ThreeVector.mag2 (⟨5, 5, 15⟩ : G4ThreeVector α) = 275 := by
    simp only [G4ThreeVector.mag2]
    norm_num
  refine ⟨rfl, ?_, ?_⟩
  · simp only [labGunOver, MyPrimaryGeneratorAction.new, G4ThreeVector.sub,
      G4ThreeVector.mk.injEq]
    norm_num
  · simp only [G4ThreeVector.exactUnit, hmag2, G4ThreeVector.mul, mul_one_div]
    norm_num

/-- C11, refuted as stated: over the reals, the unit vector from the constructed gun
position (0, 0, -10) towards (5, 5, 5), that is unit((5, 5, 15)), is not
(0.3086, 0.3086, 0.9258) to any reasonable precision: its x component is more than
0.007 away from 0.3086 and its z component more than 0.02 away from 0.9258. -/
theorem scenario_direction_is_not_the_stated_approximation :
    G4ThreeVector.sub ⟨5, 5, 5⟩ (labGunOver ℝ).gunPosition = ⟨5, 5, 15⟩ ∧
    ¬ (abs ((G4ThreeVector.exactUnit Real.sqrt ⟨5, 5, 15⟩).x - 0.3086) < 0.007) ∧
    ¬ (abs ((G4ThreeVector.exactUnit Real.sqrt ⟨5, 5, 15⟩).z - 0.9258) < 0.02) := by
  obtain ⟨hlo, hhi⟩ := Real_sqrt_exact.sqrt_275_bounds
  have hpos : (0 : ℝ) < Real.sqrt 275 := by linarith
  obtain ⟨-, hsub, hdir⟩ := exactUnit_scenario Real.sqrt
  have hxlt : 5 / Real.sqrt 275 < 0.3016 := by
    rw [div_lt_iff₀ hpos]; nlinarith
  have hzlt : 15 / Real.sqrt 275 < 0.9046 := by
    rw [div_lt_iff₀ hpos]; nlinarith
  refine ⟨hsub, ?_, ?_⟩
  · rw [hdir, abs_lt]
    intro h
    have h1 := h.1
    simp only at h1
    linarith
  · rw [hdir, abs_lt]
    intro h
    have h1 := h.1
    simp only at h1
    linarith

/-- C11, amended: in the lab of half size (10, 10, 10) the constructed gun sits at
(0, 0, -10); from there the target (5, 5, 5) lies along (5, 5, 15), whose unit vector
is (5, 5, 15) over the square root of 275, within 0.00005 of (0.3015, 0.3015, 0.9045);
and `SetGunPosition (20, 0, 0)` is rejected in every state of that lab: it writes the
diagnostic and returns the state it was given, so a position (0, 0, -10) and the stored
direction remain. -/
theorem scenario_unit_vector_and_rejected_move {α : Type} [LinearOrderedField α]
    (sqrt : α → α) (hs : SqrtExact sqrt) :
    (labGunOver α).halfLabSize = ⟨10, 10, 10⟩ ∧
    (labGunOver α).gunPosition = ⟨0, 0, -10⟩ ∧
    G4ThreeVector.sub ⟨5, 5, 5⟩ (labGunOver α).gunPosition = ⟨5, 5, 15⟩ ∧
    G4ThreeVector.exactUnit sqrt ⟨5, 5, 15⟩ =
      ⟨5 / sqrt 275, 5 / sqrt 275, 15 / sqrt 275⟩ ∧
    abs ((G4ThreeVector.exactUnit sqrt ⟨5, 5, 15⟩).x - 0.3015) < 0.00005 ∧
    abs ((G4ThreeVector.exactUnit sqrt ⟨5, 5, 15⟩).y - 0.3015) < 0.00005 ∧
    abs ((G4ThreeVector.exactUnit sqrt ⟨5, 5, 15⟩).z - 0.9045) < 0.00005 ∧
    (∀ self : MyPrimaryGeneratorAction α, self.halfLabSize = ⟨10, 10, 10⟩ →
      self.SetGunPosition ⟨20, 0, 0⟩ = (self, [G4cerrLine.gunOutsideLab]) ∧
      (self.SetGunPosition ⟨20, 0, 0⟩).1.gunPosition = self.gunPosition ∧
      (self.SetGunPosition ⟨20, 0, 0⟩).1.gunDirection = self.gunDirection) := by
  obtain ⟨hlo, hhi⟩ := hs.sqrt_275_bounds
  have hpos : (0 : α) < sqrt 275 := lt_trans (by norm_num) hlo
  obtain ⟨hp0, hsub, hdir⟩ := exactUnit_scenario sqrt
  have h5 : abs (5 / sqrt 275 - 0.3015) < 0.00005 := by
    rw [abs_lt]
    constructor
    · have : (0.30145 : α) < 5 / sqrt 275 := by
        rw [lt_div_iff₀ hpos]; linarith
      linarith
    · have : 5 / sqrt 275 < (0.30155 : α) := by
        rw [div_lt_iff₀ hpos]; linarith
      linarith
  have h15 : abs (15 / sqrt 275 - 0.9045) < 0.00005 := by
    rw [abs_lt]
    constructor
    · have : (0.90445 : α) < 15 / sqrt 275 := by
        rw [lt_div_iff₀ hpos]; linarith
      linarith
    · have : 15 / sqrt 275 < (0.90455 : α) := by
        rw [div_lt_iff₀ hpos]; linarith
      linarith
  refine ⟨rfl, hp0, hsub, hdir, ?_, ?_, ?_, ?_⟩
  · rw [hdir]; exact h5
  · rw [hdir]; exact h5
  · rw [hdir]; exact h15
  · intro self hlab
    have hout : ¬ (abs (20 : α) ≤ self.halfLabSize.x ∧ abs (0 : α) ≤ self.halfLabSize.y ∧
        abs (0 : α) ≤ self.halfLabSize.z) := by
      rw [hlab]
      intro h
      have h20 := h.1
      rw [abs_of_pos (by norm_num : (0 : α) < 20)] at h20
      norm_num at h20
    have hrej : self.SetGunPosition ⟨20, 0, 0⟩ = (self, [G4cerrLine.gunOutsideLab]) := by
      simp only [MyPrimaryGeneratorAction.SetGunPosition,
        MyPrimaryGeneratorAction.IsGunInsideLab, if_neg hout]
      simp
    rw [hrej]
    exact ⟨rfl, rfl, rfl⟩

/-- Witness for C11: the scenario over the reals with the real square root, the rejected
move applied to the constructed gun. -/
theorem scenario_unit_vector_and_rejected_move_witness :
    G4ThreeVector.exactUnit Real.sqrt ⟨5, 5, 15⟩ =
      ⟨5 / Real.sqrt 275, 5 / Real.sqrt 275, 15 / Real.sqrt 275⟩ ∧
    abs ((G4ThreeVector.exactUnit Real.sqrt ⟨5, 5, 15⟩).x - 0.3015) < 0.00005 ∧
    abs ((G4ThreeVector.exactUnit Real.sqrt ⟨5, 5, 15⟩).z - 0.9045) < 0.00005 ∧
    (labGunOver ℝ).SetGunPosition ⟨20, 0, 0⟩ =
      (labGunOver ℝ, [G4cerrLine.gunOutsideLab]) :=
  have h := scenario_unit_vector_and_rejected_move Real.sqrt Real_sqrt_exact
  ⟨h.2.2.2.1, h.2.2.2.2.1, h.2.2.2.2.2.2.1, (h.2.2.2.2.2.2.2 (labGunOver ℝ) rfl).1⟩
